import Mathlib

/-!
Verification of the OpenSSL backend of rust-native-tls
(`src/imp/openssl.rs`), shallowly embedded in Lean 4.

The embedding models:
* the protocol allow-list application `supported_protocols`
  (context options as a `Nat` bitmask, flag constants with their
  OpenSSL 1.0.x numeric values);
* the handshake-error translation (`From<ssl::HandshakeError>` and the
  handshake-driving calls `connect` / `accept` / `handshake`);
* `Pkcs12::from_der`, `TlsConnectorBuilder::identity`,
  `TlsStream::buffered_read_size` and `TlsStream::shutdown`,
  with the external OpenSSL primitives abstracted as parameters.
-/

namespace NativeTls

/-- Enumeration `Protocol` of the crate (the variants are those matched
in `supported_protocols`, including the hidden non-exhaustive marker). -/
inductive Protocol where
  | Sslv3
  | Tlsv10
  | Tlsv11
  | Tlsv12
  | NonExhaustive
  deriving DecidableEq, Repr

/-- Constant `SSL_OP_NO_SSLv2`, OpenSSL 1.0.x value. -/
def SSL_OP_NO_SSLV2 : Nat := 0x01000000

/-- Constant `SSL_OP_NO_SSLv3`, OpenSSL 1.0.x value. -/
def SSL_OP_NO_SSLV3 : Nat := 0x02000000

/-- Constant `SSL_OP_NO_TLSv1`, OpenSSL 1.0.x value. -/
def SSL_OP_NO_TLSV1 : Nat := 0x04000000

/-- Constant `SSL_OP_NO_TLSv1_2`, OpenSSL 1.0.x value. -/
def SSL_OP_NO_TLSV1_2 : Nat := 0x08000000

/-- Constant `SSL_OP_NO_TLSv1_1`, OpenSSL 1.0.x value. -/
def SSL_OP_NO_TLSV1_1 : Nat := 0x10000000

/-- Clear in `x` every bit that is set in `m` (the effect of
`options &= !op` on a bitflags value). -/
def clearBits (x m : Nat) : Nat := x ^^^ (x &&& m)

/-- The flag the loop body of `supported_protocols` selects for each real
variant; `none` models the `unreachable!()` panic on the hidden variant. -/
def protocolOp : Protocol → Option Nat
  | .Sslv3 => some SSL_OP_NO_SSLV3
  | .Tlsv10 => some SSL_OP_NO_TLSV1
  | .Tlsv11 => some SSL_OP_NO_TLSV1_1
  | .Tlsv12 => some SSL_OP_NO_TLSV1_2
  | .NonExhaustive => none

/-- Loop `for protocol in protocols { ... options &= !op; }` loop:
clears the selected flag for each listed protocol, or aborts (panics)
on the non-exhaustive variant. -/
def applyProtocolLoop : List Protocol → Nat → Option Nat
  | [], options => some options
  | p :: ps, options =>
    match protocolOp p with
    | none => none
    | some op => applyProtocolLoop ps (clearBits options op)

/-- The mask the source hand-builds in place of `SSL_OP_NO_SSL_MASK`.
Faithful to the source, which lists `SSL_OP_NO_TLSV1_2` twice and omits
`SSL_OP_NO_TLSV1_1`. -/
def ssl_op_no_ssl_mask : Nat :=
  SSL_OP_NO_SSLV2 ||| SSL_OP_NO_SSLV3 |||
    SSL_OP_NO_TLSV1 ||| SSL_OP_NO_TLSV1_2 ||| SSL_OP_NO_TLSV1_2

/-- Function `supported_protocols(protocols, ctx)`: the context's option word is
the input `ctxOptions` and the returned word its final state
(`ctx.clear_options(SslOption::all())` zeroes every defined option bit,
and `ctx.set_options` ORs the computed word back in, so the final state
is exactly the computed word). `none` models the `unreachable!()` panic. -/
def supported_protocols (protocols : List Protocol) (ctxOptions : Nat) :
    Option Nat :=
  let options := ctxOptions
  let options := options ||| ssl_op_no_ssl_mask
  applyProtocolLoop protocols options

/-- The union of the five protocol-disabling flags (the frame of claim
C10 and the mask the source's comment says it intends to build). -/
def noProtocolMask : Nat :=
  SSL_OP_NO_SSLV2 ||| SSL_OP_NO_SSLV3 ||| SSL_OP_NO_TLSV1 |||
    SSL_OP_NO_TLSV1_1 ||| SSL_OP_NO_TLSV1_2

section Wrappers

variable {S E Cert Key Raw : Type}

/-- Type `ssl::Error` of rust-openssl 0.9, parametric in the transport's
`io::Error` type `E`; the `ErrorStack` payload is abstracted as a code. -/
inductive SslError (E : Type) where
  | ZeroReturn
  | WantRead (e : E)
  | WantWrite (e : E)
  | WantX509Lookup
  | Stream (e : E)
  | Ssl (stack : Nat)
  deriving Repr

/-- Type `pub struct Error(ssl::Error)` of the crate. -/
structure Error (E : Type) where
  inner : SslError E
  deriving Repr

/-- Type `ShutdownResult` of rust-openssl. -/
inductive ShutdownResult where
  | Sent
  | Received
  deriving DecidableEq, Repr

/-- An `io::Result` error as produced by `TlsStream::shutdown`: either the
transport's own `io::Error` returned verbatim, or
`io::Error::new(ErrorKind::Other, e)` wrapping a negotiation-layer error. -/
inductive ShutdownIoError (E : Type) where
  | fromStream (e : E)
  | otherWrapping (e : SslError E)
  deriving Repr

/-- Type `ssl::SslStream<S>` (established engine stream): the transport, the
abstracted negotiation context, and `ssl().pending()`, the number of
already-decrypted plaintext bytes buffered in the engine. -/
structure SslStream (S : Type) where
  stream : S
  sslState : Nat
  pending : Nat

/-- Type `pub struct TlsStream<S>(ssl::SslStream<S>)`. -/
structure TlsStream (S : Type) where
  inner : SslStream S

/-- Type `MidHandshakeSslStream<S>` of rust-openssl: the transport stream,
the abstracted partially-negotiated context, and the error payload that
`into_error()` extracts. -/
structure MidHandshakeSslStream (S E : Type) where
  stream : S
  sslState : Nat
  error : SslError E

/-- Method `MidHandshakeSslStream::into_error`. -/
def MidHandshakeSslStream.into_error (m : MidHandshakeSslStream S E) :
    SslError E := m.error

/-- Type `pub struct MidHandshakeTlsStream<S>(MidHandshakeSslStream<S>)`. -/
structure MidHandshakeTlsStream (S E : Type) where
  inner : MidHandshakeSslStream S E

/-- Method `MidHandshakeTlsStream::get_ref`, returning the transport. -/
def MidHandshakeTlsStream.get_ref (m : MidHandshakeTlsStream S E) : S :=
  m.inner.stream

/-- Type `ssl::HandshakeError<S>` of rust-openssl. -/
inductive SslHandshakeError (S E : Type) where
  | SetupFailure (stack : Nat)
  | Failure (mid : MidHandshakeSslStream S E)
  | Interrupted (mid : MidHandshakeSslStream S E)

/-- Type `pub enum HandshakeError<S>` of the crate. -/
inductive HandshakeError (S E : Type) where
  | Failure (e : Error E)
  | Interrupted (s : MidHandshakeTlsStream S E)

/-- Impl `From<ssl::HandshakeError<S>> for HandshakeError<S>`. -/
def HandshakeError.fromSsl :
    SslHandshakeError S E → HandshakeError S E
  | .SetupFailure es => .Failure ⟨.Ssl es⟩
  | .Failure m => .Failure ⟨m.into_error⟩
  | .Interrupted m => .Interrupted ⟨m⟩

/-- Method `TlsConnector::connect`: `engine` is the result of
`self.0.connect(domain, stream)`; `try!` maps the error through `From`. -/
def TlsConnector.connect
    (engine : Except (SslHandshakeError S E) (SslStream S)) :
    Except (HandshakeError S E) (TlsStream S) :=
  match engine with
  | .ok s => .ok ⟨s⟩
  | .error e => .error (HandshakeError.fromSsl e)

/-- Method `TlsAcceptor::accept`: `engine` is the result of
`self.0.accept(stream)`. -/
def TlsAcceptor.accept
    (engine : Except (SslHandshakeError S E) (SslStream S)) :
    Except (HandshakeError S E) (TlsStream S) :=
  match engine with
  | .ok s => .ok ⟨s⟩
  | .error e => .error (HandshakeError.fromSsl e)

/-- Method `MidHandshakeTlsStream::handshake`: `engine` is the result of
`self.0.handshake()`. -/
def MidHandshakeTlsStream.handshake
    (engine : Except (SslHandshakeError S E) (SslStream S)) :
    Except (HandshakeError S E) (TlsStream S) :=
  match engine with
  | .ok s => .ok ⟨s⟩
  | .error e => .error (HandshakeError.fromSsl e)

/-- Method `TlsStream::buffered_read_size`:
`Ok(self.0.ssl().pending())`. -/
def TlsStream.buffered_read_size (s : TlsStream S) : Except (Error E) Nat :=
  .ok s.inner.pending

/-- Method `TlsStream::shutdown`: the loop, driven by the successive results
of the engine primitive `self.0.shutdown()` (given as a trace); `none` means
the trace ended while the loop still wanted another engine call. -/
def TlsStream.shutdown :
    List (Except (SslError E) ShutdownResult) →
      Option (Except (ShutdownIoError E) Unit)
  | [] => none
  | .ok .Sent :: rest => TlsStream.shutdown rest
  | .ok .Received :: _ => some (.ok ())
  | .error .ZeroReturn :: _ => some (.ok ())
  | .error (.Stream e) :: _ => some (.error (.fromStream e))
  | .error (.WantRead e) :: _ => some (.error (.fromStream e))
  | .error (.WantWrite e) :: _ => some (.error (.fromStream e))
  | .error e :: _ => some (.error (.otherWrapping e))

/-- Pair {certificate, private key, chain} of `pkcs12::ParsedPkcs12`. -/
structure ParsedPkcs12 (Cert Key : Type) where
  cert : Cert
  pkey : Key
  chain : List Cert
  deriving Repr

/-- Type `pub struct Pkcs12(pkcs12::ParsedPkcs12)` of the crate. -/
structure Pkcs12 (Cert Key : Type) where
  parsed : ParsedPkcs12 Cert Key
  deriving Repr

/-- Method `Pkcs12::from_der(buf, pass)`: the OpenSSL primitives
`pkcs12::Pkcs12::from_der` (DER parse) and `Pkcs12::parse` (passphrase
decrypt) are external and passed as parameters, each failing with an
`ErrorStack` code that `try!` converts through `From<ErrorStack>` into
`Error(ssl::Error::Ssl(stack))`. -/
def Pkcs12.from_der
    (parseDer : List Nat → Except Nat Raw)
    (parsePkcs12 : Raw → String → Except Nat (ParsedPkcs12 Cert Key))
    (buf : List Nat) (pass : String) :
    Except (Error E) (Pkcs12 Cert Key) :=
  match parseDer buf with
  | .error es => .error ⟨.Ssl es⟩
  | .ok pkcs12 =>
    match parsePkcs12 pkcs12 pass with
    | .error es => .error ⟨.Ssl es⟩
    | .ok parsed => .ok ⟨parsed⟩

/-- Certificate/key/chain state of an `SslContextBuilder` as touched by
`TlsConnectorBuilder::identity`. -/
structure SslContextState (Cert Key : Type) where
  cert : Option Cert
  pkey : Option Key
  chain : List Cert
  deriving Repr

/-- Primitive `SSL_CTX_check_private_key`, abstracted by the predicate
`keyMatches`: succeeds iff the stored private key keyMatches the stored
certificate, failing with `ErrorStack` code `es` otherwise. -/
def check_private_key (keyMatches : Key → Cert → Bool) (es : Nat)
    (ctx : SslContextState Cert Key) : Except Nat Unit :=
  match ctx.cert, ctx.pkey with
  | some c, some k => if keyMatches k c then .ok () else .error es
  | _, _ => .error es

/-- Method `TlsConnectorBuilder::identity`: sets the certificate, then the
private key, runs `check_private_key`, and only on success appends each
chain certificate in order via `add_extra_chain_cert` (which appends and
never removes). Returns the `Result` together with the context state left
behind (the Rust method mutates the context in place). -/
def TlsConnectorBuilder.identity (keyMatches : Key → Cert → Bool) (es : Nat)
    (p : Pkcs12 Cert Key) (ctx : SslContextState Cert Key) :
    Except (Error E) Unit × SslContextState Cert Key :=
  let ctx := { ctx with cert := some p.parsed.cert }
  let ctx := { ctx with pkey := some p.parsed.pkey }
  match check_private_key keyMatches es ctx with
  | .error e => (.error ⟨.Ssl e⟩, ctx)
  | .ok _ =>
    let ctx := p.parsed.chain.foldl
      (fun c cert => { c with chain := c.chain ++ [cert] }) ctx
    (.ok (), ctx)

end Wrappers

/-! ## Helper lemmas -/

theorem clearBits_testBit (x m i : Nat) :
    (clearBits x m).testBit i = (x.testBit i && !(m.testBit i)) := by
  simp only [clearBits, Nat.testBit_xor, Nat.testBit_land]
  cases x.testBit i <;> cases m.testBit i <;> rfl

theorem noProtocolMask_flags (i : Nat)
    (hi : noProtocolMask.testBit i = false) :
    SSL_OP_NO_SSLV2.testBit i = false ∧ SSL_OP_NO_SSLV3.testBit i = false ∧
    SSL_OP_NO_TLSV1.testBit i = false ∧ SSL_OP_NO_TLSV1_1.testBit i = false ∧
    SSL_OP_NO_TLSV1_2.testBit i = false := by
  simp only [noProtocolMask, Nat.testBit_lor, Bool.or_eq_false_iff] at hi
  tauto

theorem applyProtocolLoop_isSome (ps : List Protocol) (o : Nat) :
    (applyProtocolLoop ps o).isSome ↔ Protocol.NonExhaustive ∉ ps := by
  induction ps generalizing o with
  | nil => simp [applyProtocolLoop]
  | cons p ps ih => cases p <;> simp [applyProtocolLoop, protocolOp, ih]

theorem applyProtocolLoop_frame (ps : List Protocol) (i : Nat)
    (hi : noProtocolMask.testBit i = false) :
    ∀ x r, applyProtocolLoop ps x = some r → r.testBit i = x.testBit i := by
  obtain ⟨h2, h3, h1, h11, h12⟩ := noProtocolMask_flags i hi
  induction ps with
  | nil =>
    intro x r h
    simp only [applyProtocolLoop, Option.some.injEq] at h
    rw [h]
  | cons p ps ih =>
    intro x r h
    cases p
    case NonExhaustive => simp [applyProtocolLoop, protocolOp] at h
    case Sslv3 =>
      simp only [applyProtocolLoop, protocolOp] at h
      rw [ih _ _ h, clearBits_testBit, h3]
      simp
    case Tlsv10 =>
      simp only [applyProtocolLoop, protocolOp] at h
      rw [ih _ _ h, clearBits_testBit, h1]
      simp
    case Tlsv11 =>
      simp only [applyProtocolLoop, protocolOp] at h
      rw [ih _ _ h, clearBits_testBit, h11]
      simp
    case Tlsv12 =>
      simp only [applyProtocolLoop, protocolOp] at h
      rw [ih _ _ h, clearBits_testBit, h12]
      simp

/-! ## Claims about the protocol selector -/

/-- C1 (failing-input evaluation): applying the empty allow-list to a fresh
context sets only the mask the source builds, in which the
`SSL_OP_NO_TLSV1_1` flag is clear — TLS 1.1 is NOT disabled although it is
absent from the empty list, contradicting the claim that every version not
in the list is disabled and that a handshake then always fails. -/
theorem supported_protocols_empty_leaves_tlsv11_enabled :
    supported_protocols [] 0 = some 0x0F000000 ∧
    0x0F000000 &&& SSL_OP_NO_TLSV1_1 = 0 ∧
    SSL_OP_NO_TLSV1_1 ≠ 0 :=
  ⟨rfl, rfl, by decide⟩

/-- C2 (failing-input evaluation): on a context whose option word already
has `SSL_OP_NO_TLSV1_1` set, applying the allow-list `[Tlsv11]` and then
the empty allow-list yields option word `0x0F000000`, while applying the
empty allow-list alone yields `0x1F000000` — the last call does not fully
replace the earlier restriction, because the hand-built mask omits
`SSL_OP_NO_TLSV1_1`. -/
theorem supported_protocols_last_call_does_not_win :
    supported_protocols [Protocol.Tlsv11] SSL_OP_NO_TLSV1_1 =
      some 0x0F000000 ∧
    supported_protocols [] 0x0F000000 = some 0x0F000000 ∧
    supported_protocols [] SSL_OP_NO_TLSV1_1 = some 0x1F000000 ∧
    (0x0F000000 : Nat) ≠ 0x1F000000 :=
  ⟨rfl, rfl, rfl, by decide⟩

/-- C8: `supported_protocols` reaches its `unreachable!()` panic exactly
when the hidden non-exhaustive variant occurs in the slice; for every slice
of the four real variants it completes without panicking. -/
theorem supported_protocols_no_panic (protocols : List Protocol) (o : Nat) :
    (supported_protocols protocols o).isSome ↔
      Protocol.NonExhaustive ∉ protocols := by
  simp only [supported_protocols]
  exact applyProtocolLoop_isSome protocols _

/-- C10: `supported_protocols` changes no option bit outside the five
protocol-disabling flags: whenever it completes, every bit of the final
option word outside `noProtocolMask` equals the corresponding bit of the
initial option word. -/
theorem supported_protocols_frame (protocols : List Protocol) (o r : Nat)
    (h : supported_protocols protocols o = some r) (i : Nat)
    (hi : noProtocolMask.testBit i = false) :
    r.testBit i = o.testBit i := by
  obtain ⟨h2, h3, h1, h11, h12⟩ := noProtocolMask_flags i hi
  simp only [supported_protocols] at h
  rw [applyProtocolLoop_frame protocols i hi _ _ h]
  simp only [ssl_op_no_ssl_mask, Nat.testBit_lor, h2, h3, h1, h12]
  simp

/-- Witness for C10: with allow-list `[Tlsv12]` and initial options `1`
(a non-protocol bit), bit `0` of the final option word equals bit `0` of
the initial word. -/
theorem supported_protocols_frame_witness :
    Nat.testBit 0x07000001 0 = Nat.testBit 1 0 :=
  supported_protocols_frame [Protocol.Tlsv12] 1 0x07000001 rfl 0 (by decide)

/-! ## Claims about the stream, handshake and identity plumbing -/

/-- C9: `TlsStream::buffered_read_size` never fails: for every established
stream it returns `Ok` of `ssl().pending()`, the number of already-decrypted
plaintext bytes buffered in the engine; the error case of its `Result`
type is unreachable. -/
theorem buffered_read_size_never_fails {S E : Type} (s : TlsStream S) :
    TlsStream.buffered_read_size (E := E) s = .ok s.inner.pending := rfl

/-- C3: behavior of the `TlsStream::shutdown` loop on each engine outcome:
`Sent` loops again; `Received` and `ZeroReturn` return `Ok(())`; `Stream`,
`WantRead` and `WantWrite` return the transport's own I/O error verbatim;
any other negotiation-layer error (`WantX509Lookup`, `Ssl`) is wrapped as
an I/O error of kind `Other`. -/
theorem shutdown_loop_spec {E : Type}
    (rest : List (Except (SslError E) ShutdownResult)) (e : E) (es : Nat) :
    TlsStream.shutdown (.ok .Sent :: rest) = TlsStream.shutdown rest ∧
    TlsStream.shutdown (.ok .Received :: rest) = some (.ok ()) ∧
    TlsStream.shutdown (.error .ZeroReturn :: rest) = some (.ok ()) ∧
    TlsStream.shutdown (.error (.Stream e) :: rest) =
      some (.error (.fromStream e)) ∧
    TlsStream.shutdown (.error (.WantRead e) :: rest) =
      some (.error (.fromStream e)) ∧
    TlsStream.shutdown (.error (.WantWrite e) :: rest) =
      some (.error (.fromStream e)) ∧
    TlsStream.shutdown (.error .WantX509Lookup :: rest) =
      some (.error (.otherWrapping .WantX509Lookup)) ∧
    TlsStream.shutdown (.error (.Ssl es) :: rest) =
      some (.error (.otherWrapping (.Ssl es))) :=
  ⟨rfl, rfl, rfl, rfl, rfl, rfl, rfl, rfl⟩

/-- C4: each handshake-driving call (`connect`, `accept`,
`MidHandshakeTlsStream::handshake`) maps the engine's result to exactly one
of three outcomes: `Ok` of an established stream, `Interrupted` carrying a
`MidHandshakeTlsStream` that preserves the engine's mid-handshake state
(transport stream and negotiation context) unchanged, or `Failure`; the
engine's `Interrupted` is never mapped to `Failure`, and both engine
failure variants (`SetupFailure`, `Failure`) map to `Failure`. -/
theorem handshake_outcomes {S E : Type} (s : SslStream S)
    (m : MidHandshakeSslStream S E) (es : Nat)
    (r : Except (SslHandshakeError S E) (SslStream S)) :
    TlsConnector.connect (S := S) (E := E) (.ok s) = .ok ⟨s⟩ ∧
    TlsAcceptor.accept (S := S) (E := E) (.ok s) = .ok ⟨s⟩ ∧
    MidHandshakeTlsStream.handshake (S := S) (E := E) (.ok s) = .ok ⟨s⟩ ∧
    TlsConnector.connect (.error (.Interrupted m)) =
      .error (.Interrupted ⟨m⟩) ∧
    TlsAcceptor.accept (.error (.Interrupted m)) =
      .error (.Interrupted ⟨m⟩) ∧
    MidHandshakeTlsStream.handshake (.error (.Interrupted m)) =
      .error (.Interrupted ⟨m⟩) ∧
    (MidHandshakeTlsStream.mk m).get_ref = m.stream ∧
    (MidHandshakeTlsStream.mk m).inner = m ∧
    TlsConnector.connect (.error (.SetupFailure (S := S) (E := E) es)) =
      .error (.Failure ⟨.Ssl es⟩) ∧
    TlsConnector.connect (.error (.Failure m)) =
      .error (.Failure ⟨m.into_error⟩) ∧
    TlsAcceptor.accept (.error (.SetupFailure (S := S) (E := E) es)) =
      .error (.Failure ⟨.Ssl es⟩) ∧
    TlsAcceptor.accept (.error (.Failure m)) =
      .error (.Failure ⟨m.into_error⟩) ∧
    MidHandshakeTlsStream.handshake
        (.error (.SetupFailure (S := S) (E := E) es)) =
      .error (.Failure ⟨.Ssl es⟩) ∧
    MidHandshakeTlsStream.handshake (.error (.Failure m)) =
      .error (.Failure ⟨m.into_error⟩) ∧
    ((∃ t, MidHandshakeTlsStream.handshake r = .ok t) ∨
      (∃ mid, MidHandshakeTlsStream.handshake r = .error (.Interrupted mid)) ∨
      (∃ err, MidHandshakeTlsStream.handshake r = .error (.Failure err))) := by
  refine ⟨rfl, rfl, rfl, rfl, rfl, rfl, rfl, rfl, rfl, rfl, rfl, rfl, rfl,
    rfl, ?_⟩
  rcases r with e | s2
  · cases e with
    | SetupFailure es2 => exact Or.inr (Or.inr ⟨_, rfl⟩)
    | Failure m2 => exact Or.inr (Or.inr ⟨_, rfl⟩)
    | Interrupted m2 => exact Or.inr (Or.inl ⟨_, rfl⟩)
  · exact Or.inl ⟨_, rfl⟩

/-- C5: `Pkcs12::from_der` succeeds exactly when the DER parse and the
passphrase decrypt both succeed, returning the parsed identity; the first
failing primitive's error is returned (wrapped through
`From<ErrorStack>`). -/
theorem from_der_spec {E Raw Cert Key : Type}
    (parseDer : List Nat → Except Nat Raw)
    (parsePkcs12 : Raw → String → Except Nat (ParsedPkcs12 Cert Key))
    (buf : List Nat) (pass : String) :
    ((∃ p, Pkcs12.from_der (E := E) parseDer parsePkcs12 buf pass = .ok p) ↔
      (∃ raw parsed, parseDer buf = .ok raw ∧
        parsePkcs12 raw pass = .ok parsed)) ∧
    (∀ raw parsed, parseDer buf = .ok raw →
      parsePkcs12 raw pass = .ok parsed →
      Pkcs12.from_der (E := E) parseDer parsePkcs12 buf pass =
        .ok ⟨parsed⟩) ∧
    (∀ es, parseDer buf = .error es →
      Pkcs12.from_der (E := E) parseDer parsePkcs12 buf pass =
        .error ⟨.Ssl es⟩) ∧
    (∀ raw es, parseDer buf = .ok raw → parsePkcs12 raw pass = .error es →
      Pkcs12.from_der (E := E) parseDer parsePkcs12 buf pass =
        .error ⟨.Ssl es⟩) := by
  rcases hd : parseDer buf with es | raw
  · refine ⟨⟨fun hex => ?_, fun hex => ?_⟩, fun raw parsed hraw _ => ?_,
      fun es2 hes => ?_, fun raw es2 hraw _ => ?_⟩
    · obtain ⟨p, hp⟩ := hex
      simp [Pkcs12.from_der, hd] at hp
    · obtain ⟨raw, parsed, hraw, -⟩ := hex
      exact absurd hraw (by simp)
    · exact absurd hraw (by simp)
    · injection hes with h
      subst h
      simp [Pkcs12.from_der, hd]
    · exact absurd hraw (by simp)
  · rcases hp : parsePkcs12 raw pass with es | parsed
    · refine ⟨⟨fun hex => ?_, fun hex => ?_⟩,
        fun raw2 parsed2 hraw2 hparsed2 => ?_, fun es2 hes => ?_,
        fun raw2 es2 hraw2 hparsed2 => ?_⟩
      · obtain ⟨p, hq⟩ := hex
        simp [Pkcs12.from_der, hd, hp] at hq
      · obtain ⟨raw2, parsed2, hraw2, hparsed2⟩ := hex
        injection hraw2 with h
        subst h
        rw [hp] at hparsed2
        exact absurd hparsed2 (by simp)
      · injection hraw2 with h
        subst h
        rw [hp] at hparsed2
        exact absurd hparsed2 (by simp)
      · exact absurd hes (by simp)
      · injection hraw2 with h
        subst h
        rw [hp] at hparsed2
        injection hparsed2 with h2
        subst h2
        simp [Pkcs12.from_der, hd, hp]
    · refine ⟨⟨fun _ => ⟨raw, parsed, rfl, hp⟩, fun _ => ?_⟩,
        fun raw2 parsed2 hraw2 hparsed2 => ?_, fun es2 hes => ?_,
        fun raw2 es2 hraw2 hparsed2 => ?_⟩
      · exact ⟨⟨parsed⟩, by simp [Pkcs12.from_der, hd, hp]⟩
      · injection hraw2 with h
        subst h
        rw [hp] at hparsed2
        injection hparsed2 with h2
        subst h2
        simp [Pkcs12.from_der, hd, hp]
      · exact absurd hes (by simp)
      · injection hraw2 with h
        subst h
        rw [hp] at hparsed2
        exact absurd hparsed2 (by simp)

/-- Witness for C5 at a concrete successful parse. -/
theorem from_der_spec_witness :
    Pkcs12.from_der (E := Unit)
        (fun _ => (.ok () : Except Nat Unit))
        (fun _ _ => .ok (⟨1, 2, []⟩ : ParsedPkcs12 Nat Nat)) [] "" =
      .ok ⟨⟨1, 2, []⟩⟩ :=
  (from_der_spec (fun _ => .ok ()) (fun _ _ => .ok ⟨1, 2, []⟩) [] "").2.1
    () ⟨1, 2, []⟩ rfl rfl

/-- Helper: the chain-appending loop of `identity` appends the chain in
order and touches nothing else. -/
theorem foldl_addChainCert {Cert Key : Type} (l : List Cert)
    (ctx : SslContextState Cert Key) :
    l.foldl (fun c cert => { c with chain := c.chain ++ [cert] }) ctx =
      { ctx with chain := ctx.chain ++ l } := by
  induction l generalizing ctx with
  | nil => simp
  | cons c cs ih =>
    simp only [List.foldl_cons, ih, List.append_assoc, List.singleton_append]

/-- Helper: closed form of `TlsConnectorBuilder::identity` on the context
state. -/
theorem identity_run {E Cert Key : Type} (keyMatches : Key → Cert → Bool)
    (es : Nat) (p : Pkcs12 Cert Key) (ctx : SslContextState Cert Key) :
    TlsConnectorBuilder.identity (E := E) keyMatches es p ctx =
      if keyMatches p.parsed.pkey p.parsed.cert then
        (.ok (),
          { cert := some p.parsed.cert, pkey := some p.parsed.pkey,
            chain := ctx.chain ++ p.parsed.chain })
      else
        (.error ⟨.Ssl es⟩,
          { cert := some p.parsed.cert, pkey := some p.parsed.pkey,
            chain := ctx.chain }) := by
  simp only [TlsConnectorBuilder.identity, check_private_key]
  rcases h : keyMatches p.parsed.pkey p.parsed.cert <;>
    simp [h, foldl_addChainCert]

/-- C6: `TlsConnectorBuilder::identity` sets the certificate, then the
private key, then runs the key/certificate match check; on mismatch it
returns `Err` propagating the check's error and adds no chain certificate
(certificate and key remain set); on success it appends every chain
certificate in order. -/
theorem identity_spec {E Cert Key : Type} (keyMatches : Key → Cert → Bool)
    (es : Nat) (p : Pkcs12 Cert Key) (ctx : SslContextState Cert Key) :
    (keyMatches p.parsed.pkey p.parsed.cert = false →
      TlsConnectorBuilder.identity (E := E) keyMatches es p ctx =
        (.error ⟨.Ssl es⟩,
          { cert := some p.parsed.cert, pkey := some p.parsed.pkey,
            chain := ctx.chain })) ∧
    (keyMatches p.parsed.pkey p.parsed.cert = true →
      TlsConnectorBuilder.identity (E := E) keyMatches es p ctx =
        (.ok (),
          { cert := some p.parsed.cert, pkey := some p.parsed.pkey,
            chain := ctx.chain ++ p.parsed.chain })) := by
  constructor <;> intro h <;> rw [identity_run] <;> simp [h]

/-- Witness for C6 at a concrete mismatching identity. -/
theorem identity_spec_witness :
    TlsConnectorBuilder.identity (E := Unit) (fun k c => k == c) 7
        (⟨⟨1, 2, [5]⟩⟩ : Pkcs12 Nat Nat) ⟨none, none, []⟩ =
      (.error ⟨.Ssl 7⟩, { cert := some 1, pkey := some 2, chain := [] }) :=
  (identity_spec (fun k c => k == c) 7 ⟨⟨1, 2, [5]⟩⟩ ⟨none, none, []⟩).1 rfl

/-- C7: calling `identity` a second time appends the second identity's
chain certificates after the ones added by the first call — chains
accumulate rather than replace (nothing ever clears the chain). -/
theorem identity_chain_accumulates {E Cert Key : Type}
    (keyMatches : Key → Cert → Bool) (es : Nat)
    (p1 p2 : Pkcs12 Cert Key) (ctx : SslContextState Cert Key)
    (h1 : keyMatches p1.parsed.pkey p1.parsed.cert = true)
    (h2 : keyMatches p2.parsed.pkey p2.parsed.cert = true) :
    ((TlsConnectorBuilder.identity (E := E) keyMatches es p2
        (TlsConnectorBuilder.identity (E := E) keyMatches es p1
          ctx).2).2).chain =
      ctx.chain ++ p1.parsed.chain ++ p2.parsed.chain := by
  rw [identity_run, identity_run]
  simp [h1, h2]

/-- Witness for C7: two matching identities applied in sequence leave both
chains on the context, in order. -/
theorem identity_chain_accumulates_witness :
    ((TlsConnectorBuilder.identity (E := Unit) (fun k c => k == c) 7
        (⟨⟨1, 1, [3]⟩⟩ : Pkcs12 Nat Nat)
        (TlsConnectorBuilder.identity (E := Unit) (fun k c => k == c) 7
          (⟨⟨2, 2, [4]⟩⟩ : Pkcs12 Nat Nat) ⟨none, none, []⟩).2).2).chain =
      [] ++ [4] ++ [3] :=
  identity_chain_accumulates (fun k c => k == c) 7 ⟨⟨2, 2, [4]⟩⟩
    ⟨⟨1, 1, [3]⟩⟩ ⟨none, none, []⟩ rfl rfl

end NativeTls
